import Mathlib

/-!
Verification development for the bonalyze-intelligence offer pipeline.

The Python sources are embedded shallowly:
- pure string helpers (`normalization.py`) become Lean functions on `String`;
- pydantic models (`models.py`) become structures, and pydantic validation /
  attribute-access semantics become `Except`-valued functions;
- `scraper.py`'s parser, classifier and URL builder become plain functions;
- `data_sync.py`'s batch sync and prune become functions on an explicit
  store state (a list of rows), with the backing store's keyed upsert /
  filtered delete primitives modelled from the spec's collaborator contract;
- `run_policy.py` becomes a pure function on a stats record.

Conventions of the embedding: Python `datetime` values are integers (seconds),
`float` prices are `ℚ`, `None`-able fields are `Option`s, and the character
universe handled by case-folding / transliteration tables is ASCII plus the
German letters that actually occur in the code's keyword tables and tests.
-/

/-- Python exception kinds that the embedded code can raise. -/
inductive PyErr where
  | validationError
  | attributeError
deriving DecidableEq

/-- Opaque upstream payload value: `models.py` types `category` and `quantity`
as `Any`; the pipeline never inspects their structure on a live path. -/
inductive AnyVal where
  | aNone
  | aBool (b : Bool)
  | aInt (n : Int)
  | aStr (s : String)
deriving DecidableEq

/-! ## Text normalizer (normalization.py) and matching helpers (scraper.py) -/

/-- ASCII whitespace characters matched by the regex class used in
`normalization.py` (the inputs in scope contain no exotic Unicode spaces). -/
def is_py_space (c : Char) : Bool :=
  c == ' ' || c == '\t' || c == '\n' || c == '\r' || c == '\x0b' || c == '\x0c'

/-- Maximal runs of characters satisfying `keep`, in order, separators dropped. -/
def split_runs (keep : Char → Bool) (cs : List Char) : List (List Char) :=
  (cs.foldr
    (fun c acc =>
      match acc with
      | [] => [[]]
      | g :: gs => if keep c then (c :: g) :: gs else [] :: g :: gs)
    [[]]).filter (fun g => !g.isEmpty)

/-- `normalize_whitespace` (normalization.py lines 5-9): collapse any run of
whitespace to a single space and trim both ends; empty input yields `""`. -/
def normalize_whitespace (s : String) : String :=
  String.intercalate " " ((split_runs (fun c => !is_py_space c) s.toList).map String.mk)

/-- Python `str.lower()` restricted to the character universe in play:
ASCII letters and the German uppercase umlauts. -/
def py_lower_char (c : Char) : Char :=
  if 'A' ≤ c ∧ c ≤ 'Z' then Char.ofNat (c.toNat + 32)
  else if c = 'Ä' then 'ä'
  else if c = 'Ö' then 'ö'
  else if c = 'Ü' then 'ü'
  else c

/-- Python `str.lower()` on a whole string. -/
def py_lower_str (s : String) : String :=
  String.mk (s.toList.map py_lower_char)

/-- The umlaut folding table of `Scraper._normalize_for_matching`
(scraper.py lines 408-412): lowercase umlauts and ß become two-letter
ASCII sequences; every other character is kept. -/
def umlaut_repl (c : Char) : List Char :=
  if c = 'ä' then ['a', 'e']
  else if c = 'ö' then ['o', 'e']
  else if c = 'ü' then ['u', 'e']
  else if c = 'ß' then ['s', 's']
  else [c]

/-- `Scraper._normalize_for_matching` (scraper.py lines 407-412). -/
def normalize_for_matching (s : String) : String :=
  String.mk (((normalize_whitespace s).toList.map py_lower_char).map umlaut_repl).flatten

/-- Lowercase ASCII letter or digit, the `[a-z0-9]` class of scraper.py. -/
def is_lower_alnum (c : Char) : Bool :=
  ('a' ≤ c && c ≤ 'z') || ('0' ≤ c && c ≤ '9')

/-- `Scraper._name_lookup_key` (scraper.py lines 414-419): normalize for
matching, then replace each run of non-`[a-z0-9]` characters with a single
space, collapse whitespace and trim. -/
def name_lookup_key (s : String) : String :=
  String.intercalate " " ((split_runs is_lower_alnum (normalize_for_matching s).toList).map String.mk)

/-- `Scraper._tokenize_for_matching` (scraper.py lines 421-423): the
`[a-z0-9]+` runs of the lookup key. -/
def tokenize_for_matching (s : String) : List String :=
  (split_runs is_lower_alnum (name_lookup_key s).toList).map String.mk

/-- Does `hay` start with `needle`? -/
def chars_start_with (needle hay : List Char) : Bool :=
  match needle, hay with
  | [], _ => true
  | _ :: _, [] => false
  | a :: as, b :: bs => a == b && chars_start_with as bs

/-- Character-list substring test, the semantics of Python's `needle in hay`. -/
def chars_have_sub (hay needle : List Char) : Bool :=
  match hay with
  | [] => needle.isEmpty
  | _ :: t => chars_start_with needle hay || chars_have_sub t needle

/-- Python's `needle in hay` on strings. -/
def str_has_sub (hay needle : String) : Bool :=
  chars_have_sub hay.toList needle.toList

/-! ## Category classifier (scraper.py lines 29-64 and 425-480) -/

/-- `Scraper.DRINK_ALCOHOL_KEYWORDS` (scraper.py lines 29-32). -/
def DRINK_ALCOHOL_KEYWORDS : List String :=
  ["bier", "wein", "sekt", "prosecco", "champagner", "vodka", "rum", "gin", "whisky",
   "whiskey", "likoer", "likor", "aperitif", "spirituose", "alkohol", "radler"]

/-- `Scraper.DRINK_NON_ALCOHOL_KEYWORDS` (scraper.py lines 33-36). -/
def DRINK_NON_ALCOHOL_KEYWORDS : List String :=
  ["wasser", "saft", "schorle", "limonade", "cola", "fanta", "sprite", "tee", "kaffee",
   "eistee", "energy", "smoothie", "kakao", "milchdrink", "softdrink", "alkoholfrei"]

/-- `Scraper.FOOD_SUBCATEGORY_RULES` (scraper.py lines 37-49), in table order. -/
def FOOD_SUBCATEGORY_RULES : List (String × List String) :=
  [("Lebensmittel > Konserven & Haltbares",
    ["konserve", "dose", "eingemacht", "haltbar", "vorrat", "glas", "polpa", "passiert",
     "konfituere", "marmelade", "honig"]),
   ("Lebensmittel > Gemüse",
    ["gemuese", "gemuse", "salat", "zwiebel", "kartoffel", "paprika", "tomate", "tomaten",
     "gurke", "gurken", "broccoli", "brokkoli", "karotte", "erbse", "zuckererbse", "spinat",
     "kohl", "lauch", "zucchini", "avocado", "olive", "oliven"]),
   ("Lebensmittel > Obst",
    ["obst", "apfel", "banane", "traube", "beere", "orange", "zitrone", "birne", "mandarine",
     "kiwi", "pomelo", "ananas", "mango"]),
   ("Lebensmittel > Tiefkühl",
    ["tk", "tiefkuehl", "tiefkuhl", "frozen", "tiefkühl", "eis", "pommes"]),
   ("Lebensmittel > Milchprodukte & Eier",
    ["milch", "molkerei", "joghurt", "quark", "kaese", "kase", "butter", "sahne", "rahm",
     "eier", "frischkaese"]),
   ("Lebensmittel > Fleisch, Wurst & Fisch",
    ["fleisch", "wurst", "schwein", "rind", "huhn", "haehnchen", "gefluegel", "geflugel",
     "fisch", "lachs", "garnelen", "bacon", "salami", "kabanos", "wuerstchen", "wurstchen"]),
   ("Lebensmittel > Brot & Backwaren",
    ["brot", "broet", "brotchen", "back", "croissant", "toast", "baguette", "kuchen",
     "broetchen", "zopf", "schnecke"]),
   ("Lebensmittel > Süßes & Snacks",
    ["snack", "schokolade", "keks", "chips", "praline", "bonbon", "riegel", "sues", "suss",
     "pick up", "gummibaer", "gummibar"]),
   ("Lebensmittel > Fertiggerichte",
    ["fertig", "instant", "pizza", "lasagne", "eintopf", "suppe", "menue", "menu",
     "microwave", "kartoffelgericht", "airfryer"]),
   ("Lebensmittel > Gewürze, Öle & Saucen",
    ["gewuerz", "gewurz", "wuerze", "wurzpaste", "fix", "sauce", "pesto", "oel", "ol",
     "olivenoel", "rapsoel", "essig"]),
   ("Lebensmittel > Grundnahrungsmittel",
    ["nudel", "reis", "mehl", "zucker", "haferflocken", "linsen", "bohnen", "gries", "hafer"])]

/-- `Scraper.BASE_FOOD_KEYWORDS` (scraper.py lines 50-52). -/
def BASE_FOOD_KEYWORDS : List String :=
  ["lebensmittel", "essen", "nahrung", "naehr", "genuss", "feinkost"]

/-- `Scraper.OTHER_TOP_CATEGORY_RULES` (scraper.py lines 53-64), in table order. -/
def OTHER_TOP_CATEGORY_RULES : List (String × List String) :=
  [("Drogerie",
    ["drogerie", "hygiene", "kosmetik", "pflege", "deo", "dusch", "shampoo", "zahnpasta",
     "slipeinlagen", "tampon", "creme", "body", "makeup"]),
   ("Haushalt",
    ["haushalt", "reinigung", "reiniger", "geschirr", "spuel", "spul", "putz", "waschmittel",
     "kueche", "kuche", "behaelter", "behalter", "muell", "mull", "staub", "wischer", "eimer",
     "toilettenpapier", "taschentuecher", "taschentucher", "lufterfrischer", "duft"]),
   ("Tierbedarf", ["tier", "hund", "katze", "haustier", "futter"]),
   ("Baby & Kind", ["baby", "kind", "windel", "nuckel", "kinder"]),
   ("Gesundheit", ["gesundheit", "medizin", "apotheke", "vitamin", "pflaster"]),
   ("Baumarkt & Garten",
    ["baumarkt", "garten", "bohr", "werkzeug", "schraub", "saege", "sage", "rasen", "pflanze",
     "duenger", "dunger"]),
   ("Elektronik",
    ["elektronik", "akku", "batterie", "roboter", "multimeter", "led", "tv", "smartphone",
     "computer"]),
   ("Mode", ["mode", "socken", "hoodie", "jacke", "shirt", "hose", "schuh"]),
   ("Wohnen", ["wohnen", "sofa", "moebel", "mobel", "bett", "lampe", "stuhl"]),
   ("Freizeit & Sport", ["sport", "fitness", "outdoor", "wandern", "freizeit", "fahrrad"])]

/-- `Scraper._keyword_score` (scraper.py lines 425-440): whole-word token hits
score 2, substring hits of multi-word phrases score 2, other substring hits
score 1. -/
def keyword_score (haystack : String) (token_set : List String) (keywords : List String) : Nat :=
  keywords.foldl
    (fun score keyword =>
      let kw := name_lookup_key keyword
      if kw = "" then score
      else if str_has_sub kw " " then
        if str_has_sub haystack kw then score + 2 else score
      else if token_set.contains kw then score + 2
      else if str_has_sub haystack kw then score + 1
      else score)
    0

/-- `Scraper._to_category_label` (scraper.py lines 442-480). -/
def to_category_label (raw_category : Option String) (product_name : Option String) : Option String :=
  let category_text := normalize_whitespace (raw_category.getD "")
  let product_text := normalize_whitespace (product_name.getD "")
  if category_text = "" ∧ product_text = "" then none
  else
    let match_haystack := name_lookup_key (category_text ++ " " ++ product_text)
    let token_set := tokenize_for_matching match_haystack
    let alcohol_score := keyword_score match_haystack token_set DRINK_ALCOHOL_KEYWORDS
    let non_alcohol_score := keyword_score match_haystack token_set DRINK_NON_ALCOHOL_KEYWORDS
    if alcohol_score ≥ 2 ∧ alcohol_score ≥ non_alcohol_score + 1 then some "Getränke > Alkohol"
    else if non_alcohol_score ≥ 2 then some "Getränke > Alkoholfrei"
    else if str_has_sub match_haystack "getraenk" || str_has_sub match_haystack "getrank" then
      some "Getränke > Alkoholfrei"
    else
      let best := FOOD_SUBCATEGORY_RULES.foldl
        (fun (acc : Option String × Nat) rule =>
          let score := keyword_score match_haystack token_set rule.2
          if score > acc.2 then (some rule.1, score) else acc)
        (none, 0)
      if best.1.isSome ∧ best.2 ≥ 1 then best.1
      else if keyword_score match_haystack token_set BASE_FOOD_KEYWORDS ≥ 1 then
        some "Lebensmittel > Sonstiges"
      else
        match OTHER_TOP_CATEGORY_RULES.findSome?
            (fun rule =>
              if keyword_score match_haystack token_set rule.2 ≥ 2 then some rule.1 else none) with
        | some top => some top
        | none => if category_text ≠ "" ∨ product_text ≠ "" then some "Sonstiges" else none

/-- `slugify`'s transliteration step (normalization.py line 18):
`unicodedata.normalize("NFKD", ·)` followed by an ASCII encode that drops
unencodable characters. ASCII characters pass through; the German umlauts
decompose to their base letter (the combining mark is dropped); ß has no
NFKD decomposition and is dropped; other non-ASCII characters in this
development's universe carry no ASCII base and are dropped. -/
def nfkd_ascii (c : Char) : List Char :=
  if c.toNat < 128 then [c]
  else if c = 'ä' then ['a']
  else if c = 'ö' then ['o']
  else if c = 'ü' then ['u']
  else if c = 'Ä' then ['A']
  else if c = 'Ö' then ['O']
  else if c = 'Ü' then ['U']
  else []

/-- `slugify` (normalization.py lines 12-22): normalize whitespace,
transliterate to ASCII, lowercase, replace runs of non-`[a-z0-9]` with a
single hyphen, trim hyphens. -/
def slugify (value : String) : String :=
  let normalized := normalize_whitespace value
  if normalized = "" then ""
  else
    let ascii := ((normalized.toList.map nfkd_ascii).flatten).map py_lower_char
    String.intercalate "-" ((split_runs is_lower_alnum ascii).map String.mk)

/-- Python's `a or b` for an optional string `a` and default `b`:
`None` and `""` are falsy. -/
def py_or_str (a : Option String) (b : String) : String :=
  match a with
  | some s => if s = "" then b else s
  | none => b

/-! ## Raw upstream records and pydantic models (models.py) -/

/-- Raw JSON shape behind `MarktguruProduct`; every field may be absent. -/
structure RawProduct where
  id : Option Int := none
  name : Option String := none
  description : Option String := none
  brand : Option String := none
  url : Option String := none
deriving DecidableEq

/-- Raw JSON shape behind `MarktguruRetailer`; every field may be absent. -/
structure RawRetailer where
  id : Option Int := none
  name : Option String := none
  indexOffer : Option Bool := none
deriving DecidableEq

/-- Raw JSON shape behind `MarktguruValidityDate`. -/
structure RawValidityDate where
  from_ : Option Int := none
  to_ : Option Int := none
deriving DecidableEq

/-- Raw JSON shape behind `MarktguruOfferUnit`. -/
structure RawUnit where
  id : Option Int := none
  shortName : Option String := none
deriving DecidableEq

/-- One raw upstream offer record, the `item` dictionary handed to
`Scraper._parse_offer` and `Scraper._build_source_url`. Fields not listed
here are ignored by every embedded code path. -/
structure RawItem where
  id : Option Int := none
  product : Option RawProduct := none
  retailer : Option RawRetailer := none
  category : Option AnyVal := none
  price : Option ℚ := none
  oldPrice : Option ℚ := none
  referencePrice : Option ℚ := none
  description : Option String := none
  quantity : Option AnyVal := none
  unit : Option RawUnit := none
  validityDates : Option (List RawValidityDate) := none
  validFrom : Option Int := none
  validTo : Option Int := none
  images : Option AnyVal := none
  sourceUrl : Option String := none
  sourceURL : Option String := none
  offerUrl : Option String := none
  offerURL : Option String := none
  url : Option String := none
  landingPageUrl : Option String := none
  deeplink : Option String := none
deriving DecidableEq

/-- `MarktguruProduct` (models.py lines 10-14): `id` and `name` required. -/
structure MarktguruProduct where
  id : Int
  name : String
  description : Option String
  brand : Option String
deriving DecidableEq

/-- `MarktguruOfferUnit` (models.py lines 16-18). -/
structure MarktguruOfferUnit where
  id : Int
  shortName : Option String
deriving DecidableEq

/-- `MarktguruValidityDate` (models.py lines 20-22): both bounds required. -/
structure MarktguruValidityDate where
  from_ : Int
  to_ : Int
deriving DecidableEq

/-- `MarktguruRetailer` (models.py lines 24-27): `indexOffer` defaults to
`False` when the raw sub-object does not carry the field. -/
structure MarktguruRetailer where
  id : Int
  name : String
  indexOffer : Bool
deriving DecidableEq

/-- `MarktguruOffer` (models.py lines 33-49). Note there is no `categories`
field: the model declares `category` only, and `extra='ignore'` drops any
other key from the payload without storing it. -/
structure MarktguruOffer where
  id : Int
  product : MarktguruProduct
  retailer : Option MarktguruRetailer
  category : Option AnyVal
  price : ℚ
  oldPrice : Option ℚ
  referencePrice : Option ℚ
  description : Option String
  quantity : Option AnyVal
  unit : Option MarktguruOfferUnit
  validityDates : List MarktguruValidityDate
  validFrom : Option Int
  validTo : Option Int
  images : Option AnyVal
deriving DecidableEq

/-- Pydantic validation of the optional `retailer` sub-object. -/
def parse_opt_retailer : Option RawRetailer → Except PyErr (Option MarktguruRetailer)
  | none => .ok none
  | some rr =>
    match rr.id, rr.name with
    | some i, some n => .ok (some { id := i, name := n, indexOffer := rr.indexOffer.getD false })
    | _, _ => .error .validationError

/-- Pydantic validation of the optional `unit` sub-object. -/
def parse_opt_unit : Option RawUnit → Except PyErr (Option MarktguruOfferUnit)
  | none => .ok none
  | some ru =>
    match ru.id with
    | some i => .ok (some { id := i, shortName := ru.shortName })
    | none => .error .validationError

/-- Pydantic validation of the `validityDates` list: each entry must carry
both bounds. -/
def parse_validity_dates : List RawValidityDate → Except PyErr (List MarktguruValidityDate)
  | [] => .ok []
  | v :: vs =>
    match v.from_, v.to_ with
    | some f, some t =>
      match parse_validity_dates vs with
      | .ok rest => .ok ({ from_ := f, to_ := t } :: rest)
      | .error e => .error e
    | _, _ => .error .validationError

/-- `MarktguruOffer(**item)` (scraper.py line 486): pydantic validation of one
raw item; any missing required field raises a `ValidationError`. -/
def parse_marktguru_offer (item : RawItem) : Except PyErr MarktguruOffer :=
  match item.id, item.product, item.price with
  | some id, some rp, some price =>
    match rp.id, rp.name with
    | some pid, some pname =>
      match parse_opt_retailer item.retailer with
      | .error e => .error e
      | .ok retailer =>
        match parse_opt_unit item.unit with
        | .error e => .error e
        | .ok unit =>
          match parse_validity_dates (item.validityDates.getD []) with
          | .error e => .error e
          | .ok vds =>
            .ok { id := id,
                  product := { id := pid, name := pname, description := rp.description,
                               brand := rp.brand },
                  retailer := retailer, category := item.category, price := price,
                  oldPrice := item.oldPrice, referencePrice := item.referencePrice,
                  description := item.description, quantity := item.quantity, unit := unit,
                  validityDates := vds, validFrom := item.validFrom, validTo := item.validTo,
                  images := item.images }
    | _, _ => .error .validationError
  | _, _, _ => .error .validationError

/-- The attribute access `mg_offer.categories` (scraper.py line 538).
`MarktguruOffer` declares no `categories` field and uses `extra='ignore'`,
so pydantic stores no extra attributes and the access raises
`AttributeError` on every instance. -/
def marktguru_offer_attr_categories (_ : MarktguruOffer) : Except PyErr AnyVal :=
  .error .attributeError

/-- `BonalyzeOffer` (models.py lines 51-93). The model declares exactly these
fields — in particular no `category` field — and sets `extra='forbid'`. -/
structure BonalyzeOffer where
  retailer : String
  product_name : String
  price : ℚ
  regular_price : ℚ
  unit : Option String
  amount : Option AnyVal
  currency : String
  valid_from : Option Int
  valid_to : Option Int
  image_url : Option String
  source_url : Option String
  offer_id : String
  embedding : Option (List ℚ)
  scraped_at : Int
  raw_data : Option RawItem
deriving DecidableEq

/-- Keyword arguments of a `BonalyzeOffer(...)` call. `category_kw` records
whether the call site passed a `category=` keyword (as `_parse_offer` does);
since the model declares no such field and forbids extras, a passed keyword
fails validation. `scraped_at` is left to its `datetime.now()` default at
every embedded call site and is supplied as the `now` argument below. -/
structure BonalyzeOfferArgs where
  retailer : String
  product_name : String
  price : ℚ
  regular_price : ℚ
  unit : Option String := none
  amount : Option AnyVal := none
  currency : String := "EUR"
  valid_from : Option Int := none
  valid_to : Option Int := none
  image_url : Option String := none
  source_url : Option String := none
  offer_id : String
  embedding : Option (List ℚ) := none
  raw_data : Option RawItem := none
  category_kw : Option (Option String) := none

/-- Pydantic construction of `BonalyzeOffer` (models.py lines 51-93):
rejects any extra keyword (`extra='forbid'`), rejects `product_name` or
`offer_id` that normalize to the empty string, enforces `ge=0` on the two
prices, and clamps `regular_price` up to `price` when it is lower. -/
def bonalyze_offer_ctor (args : BonalyzeOfferArgs) (now : Int) : Except PyErr BonalyzeOffer :=
  if args.category_kw.isSome then .error .validationError
  else
    let pname := normalize_whitespace args.product_name
    if pname = "" then .error .validationError
    else
      let oid := normalize_whitespace args.offer_id
      if oid = "" then .error .validationError
      else if args.price < 0 then .error .validationError
      else if args.regular_price < 0 then .error .validationError
      else
        let reg := if args.regular_price < args.price then args.price else args.regular_price
        .ok { retailer := args.retailer, product_name := pname, price := args.price,
              regular_price := reg, unit := args.unit, amount := args.amount,
              currency := args.currency, valid_from := args.valid_from,
              valid_to := args.valid_to, image_url := args.image_url,
              source_url := args.source_url, offer_id := oid, embedding := args.embedding,
              scraped_at := now, raw_data := args.raw_data }

/-! ## Source-URL builder (scraper.py lines 357-382) -/

/-- The first candidate among the known source-url field variants whose
whitespace-normalized value is non-empty (scraper.py lines 359-376). -/
def first_url_candidate (item : RawItem) : Option String :=
  let candidates : List (Option String) :=
    [item.sourceUrl, item.sourceURL, item.offerUrl, item.offerURL, item.url,
     item.landingPageUrl, item.deeplink] ++
    (match item.product with
     | some p => [p.url]
     | none => [])
  candidates.findSome?
    (fun c =>
      match c with
      | some s => let v := normalize_whitespace s; if v = "" then none else some v
      | none => none)

/-- Python's `str(offer_id or "")` for an optional integer id: `None` and `0`
are falsy and yield the empty string. -/
def py_str_of_opt_int : Option Int → String
  | none => ""
  | some n => if n = 0 then "" else toString n

/-- The lowercased, whitespace-normalized retailer slug with the `"unknown"`
fallback (scraper.py line 378 and data_sync.py line 78). -/
def retailer_slug_of (retailer : String) : String :=
  let rs := py_lower_str (normalize_whitespace retailer)
  if rs = "" then "unknown" else rs

/-- `Scraper._build_source_url` (scraper.py lines 357-382). -/
def build_source_url (item : RawItem) (retailer : String) (offer_id : Option Int) : String :=
  match first_url_candidate item with
  | some v => v
  | none =>
    let retailer_slug := retailer_slug_of retailer
    let offer_id_text := normalize_whitespace (py_str_of_opt_int offer_id)
    if offer_id_text ≠ "" then
      "https://www.marktguru.de/angebote/" ++ retailer_slug ++ "/" ++ offer_id_text
    else
      "https://www.marktguru.de/angebote/" ++ retailer_slug

/-! ## Offer parser / filter pipeline (scraper.py lines 482-580) -/

/-- The retailer indexing-flag filter (scraper.py lines 490-492):
`if mg_offer.retailer and not mg_offer.retailer.indexOffer: return None`.
A pydantic model instance is always truthy, so the check fires exactly when
the sub-object is present and its `indexOffer` field is false. -/
def retailer_index_rejects : Option MarktguruRetailer → Bool
  | some rt => !rt.indexOffer
  | none => false

/-- Validity-window resolution (scraper.py lines 498-507): prefer the flat
`validFrom`/`validTo` pair when both are present, otherwise fall back to the
first entry of `validityDates`. -/
def resolve_validity (mg : MarktguruOffer) : Option (Int × Int) :=
  match mg.validFrom, mg.validTo with
  | some f, some t => some (f, t)
  | _, _ =>
    match mg.validityDates with
    | v :: _ => some (v.from_, v.to_)
    | [] => none

/-- The body of the `try` block of `Scraper._parse_offer` (scraper.py lines
484-576). `.ok none` is an explicit `return None` at a filter; `.error` is a
raised exception that the enclosing handler will convert to `None`. -/
def parse_offer_body (item : RawItem) (_retailer : String) : Except PyErr (Option BonalyzeOffer) :=
  match parse_marktguru_offer item with
  | .error e => .error e
  | .ok mg =>
    if retailer_index_rejects mg.retailer then .ok none
    else
      match resolve_validity mg with
      | none => .ok none
      | some (valid_from, valid_to) =>
        if (valid_to - valid_from).fdiv 86400 > 14 then .ok none
        else
          let name := normalize_whitespace mg.product.name
          let description :=
            normalize_whitespace (py_or_str mg.description (py_or_str mg.product.description ""))
          let _full_name :=
            if description ≠ "" ∧ description ≠ name then
              normalize_whitespace (name ++ " " ++ description)
            else name
          let _regular_price :=
            match mg.oldPrice with
            | some p => p
            | none => mg.price
          let _unit :=
            match mg.unit with
            | some u => u.shortName
            | none => none
          match marktguru_offer_attr_categories mg with
          | .error e => .error e
          | .ok _cats =>
            .ok none

/-- `Scraper._parse_offer` (scraper.py lines 482-580): the `except` handler
at lines 578-580 converts any raised error into `None`. -/
def parse_offer (item : RawItem) (retailer : String) : Option BonalyzeOffer :=
  match parse_offer_body item retailer with
  | .ok result => result
  | .error _ => none

/-! ## Synchronization engine (data_sync.py) and run orchestration (main.py) -/

/-- One flattened persistence row, the dictionary built by
`DataSync._build_offer_row` (data_sync.py lines 51-85). -/
structure OfferRow where
  product_name : String
  price : ℚ
  original_price : ℚ
  store : String
  image_url : Option String
  source_url : String
  valid_from : Option Int
  valid_until : Option Int
  scraped_at : Int
  embedding : Option (List ℚ)
  offer_id : String
  currency : String
  product_slug : String
deriving DecidableEq

/-- `DataSync._build_offer_row` (data_sync.py lines 51-85): field renames,
slug derivation with the `offer-{offer_id}` fallback, and the synthesized
source-url fallback. -/
def build_offer_row (offer : BonalyzeOffer) : OfferRow :=
  let product_name := normalize_whitespace offer.product_name
  let slug := slugify product_name
  let product_slug := if slug = "" then "offer-" ++ offer.offer_id else slug
  let source_url0 := normalize_whitespace (offer.source_url.getD "")
  let source_url :=
    if source_url0 = "" then
      let store_slug := retailer_slug_of offer.retailer
      let offer_id_text := normalize_whitespace offer.offer_id
      if offer_id_text ≠ "" then
        "https://www.marktguru.de/angebote/" ++ store_slug ++ "/" ++ offer_id_text
      else
        "https://www.marktguru.de/angebote/" ++ store_slug
    else source_url0
  { product_name := product_name, price := offer.price, original_price := offer.regular_price,
    store := offer.retailer, image_url := offer.image_url, source_url := source_url,
    valid_from := offer.valid_from, valid_until := offer.valid_to,
    scraped_at := offer.scraped_at, embedding := offer.embedding,
    offer_id := offer.offer_id, currency := offer.currency, product_slug := product_slug }

/-- The embedding gate of `DataSync.sync_offers_batch` (data_sync.py line
103): `o.embedding and len(o.embedding) == 768`. An absent or empty vector
is falsy; any other length fails the equality. -/
def emb_gate (o : BonalyzeOffer) : Bool :=
  match o.embedding with
  | none => false
  | some l => !l.isEmpty && l.length == 768

/-- `offers_to_sync` (data_sync.py line 103). -/
def offers_to_sync (offers : List BonalyzeOffer) : List BonalyzeOffer :=
  offers.filter emb_gate

/-- `data_to_upsert` (data_sync.py lines 112-114): the rows sent to the store. -/
def sync_payload (offers : List BonalyzeOffer) : List OfferRow :=
  (offers_to_sync offers).map build_offer_row

/-- The `failed` counter returned by a successful `sync_offers_batch` call
(data_sync.py lines 98-110): the offers dropped by the embedding gate. -/
def sync_offers_batch_failed (offers : List BonalyzeOffer) : Nat :=
  offers.length - (offers_to_sync offers).length

/-- Modelled from the spec: the store's batch upsert keyed by the natural key
`offer_id` (spec sections 4.5 and 6 treat the store as a keyed table with an
idempotent `upsert(rows)` primitive; the conflict target lives in the
database, not in this repository). Rows whose key occurs in the batch are
replaced; the batch is appended. -/
def upsert_rows (tbl payload : List OfferRow) : List OfferRow :=
  tbl.filter (fun r => !(payload.any (fun p => p.offer_id == r.offer_id))) ++ payload

/-- The store-state effect of a successful `DataSync.sync_offers_batch` call
(data_sync.py lines 93-129): empty batches and batches with no validly
embedded offer leave the table untouched; otherwise the surviving rows are
upserted. -/
def sync_offers_store_effect (tbl : List OfferRow) (offers : List BonalyzeOffer) : List OfferRow :=
  if offers.isEmpty then tbl
  else
    let payload := sync_payload offers
    if payload.isEmpty then tbl else upsert_rows tbl payload

/-- `DataSync.prune_stale_offers` (data_sync.py lines 131-149): delete every
row of the given retailer whose `scraped_at` is strictly below the run
timestamp; returns the new table and the number of rows removed. -/
def prune_stale_offers (run_timestamp : Int) (retailer : String) (tbl : List OfferRow) :
    List OfferRow × Nat :=
  let deleted := tbl.filter (fun row => row.store == retailer && decide (row.scraped_at < run_timestamp))
  (tbl.filter (fun row => !(row.store == retailer && decide (row.scraped_at < run_timestamp))),
   deleted.length)

/-- The mark-phase timestamp assignment of `main_async` (main.py lines
140-141): every offer in the batch gets the run's start time. -/
def set_scraped_at (run_timestamp : Int) (offers : List BonalyzeOffer) : List BonalyzeOffer :=
  offers.map (fun o => { o with scraped_at := run_timestamp })

/-! ## Run health evaluator (run_policy.py) -/

/-- The aggregate counters read by `evaluate_run_failure_reason`; each is
`stats.get(key, 0)`-style optional, mirroring the dictionary access. -/
structure StatsDict where
  fetched : Option Int := none
  inserted : Option Int := none
  embedded : Option Int := none
  store_errors : Option Int := none
  failure_rate : Option ℚ := none
deriving DecidableEq

/-- The failure reasons produced by run_policy.py, with the numbers that the
formatted message interpolates. -/
inductive RunFailureReason where
  | noOffersFetched
  | noEmbeddings
  | fetchedButNotUpserted
  | retailersFailed (n : Int)
  | failureRateTooHigh (observed allowed : ℚ)
deriving DecidableEq

/-- `evaluate_run_failure_reason` (run_policy.py lines 4-32). -/
def evaluate_run_failure_reason (stats : StatsDict) (dry_run : Bool)
    (allow_partial_success : Bool) (max_failure_rate : ℚ) : Option RunFailureReason :=
  if dry_run then none
  else
    let fetched := stats.fetched.getD 0
    let upserted := stats.inserted.getD 0
    let embedded := stats.embedded.getD 0
    let store_errors := stats.store_errors.getD 0
    let failure_rate := stats.failure_rate.getD 0
    if fetched = 0 then some .noOffersFetched
    else if embedded = 0 then some .noEmbeddings
    else if upserted = 0 then some .fetchedButNotUpserted
    else if store_errors > 0 ∧ ¬allow_partial_success then some (.retailersFailed store_errors)
    else if failure_rate > max_failure_rate then
      some (.failureRateTooHigh failure_rate max_failure_rate)
    else none

/-! ## Concrete fixtures used by witnesses and counterexamples -/

/-- The valid raw item of the repository's own parser test
(`tests/test_scraper_parse.py::_valid_item`): indexable retailer, a
seven-day validity window, `oldPrice=None`, `price=3.0`. Timestamps are the
epoch seconds of `2026-02-15T00:00:00+00:00` and `2026-02-21T23:59:00+00:00`. -/
def c4_item : RawItem :=
  { id := some 21755305,
    product := some { id := some 501, name := some "Frikadelle" },
    retailer := some { id := some 4, name := some "EDEKA", indexOffer := some true },
    price := some 3,
    oldPrice := none,
    description := some "im Brötchen Stück",
    validFrom := some 1771113600,
    validTo := some 1771718340 }

/-- A raw item with no validity information at all. -/
def c5_item : RawItem :=
  { id := some 21755305,
    product := some { id := some 501, name := some "Frikadelle" },
    retailer := some { id := some 4, name := some "EDEKA", indexOffer := some true },
    price := some 3,
    validityDates := some [] }

/-- A raw item whose validity window spans 15 days. -/
def c5_item_long : RawItem :=
  { id := some 21755305,
    product := some { id := some 501, name := some "Frikadelle" },
    retailer := some { id := some 4, name := some "EDEKA", indexOffer := some true },
    price := some 3,
    validFrom := some 0,
    validTo := some 1296000 }

/-- A raw item without flat validity bounds whose first `validityDates`
entry spans 15 days. -/
def c5_item_vd_long : RawItem :=
  { id := some 21755305,
    product := some { id := some 501, name := some "Frikadelle" },
    retailer := some { id := some 4, name := some "EDEKA", indexOffer := some true },
    price := some 3,
    validityDates := some [{ from_ := some 0, to_ := some 1296000 }] }

/-- A retailer sub-object that carries no `indexOffer` key at all. -/
def c6_raw_retailer : RawRetailer := { id := some 4, name := some "EDEKA", indexOffer := none }

/-- A retailer sub-object that explicitly allows indexing. -/
def c6_true_retailer : RawRetailer :=
  { id := some 4, name := some "EDEKA", indexOffer := some true }

/-- The keyword arguments of the `BonalyzeOffer(...)` call in
`Scraper._parse_offer`, at the test item's values, with the `category=`
keyword the call site passes. -/
def c3_args : BonalyzeOfferArgs :=
  { retailer := "edeka", product_name := "Frikadelle im Brötchen Stück", price := 3,
    regular_price := 3, offer_id := "21755305",
    category_kw := some (some "Lebensmittel > Milchprodukte & Eier") }

/-- A stored row of the swept retailer, stale relative to run time 100. -/
def c1_stale_row : OfferRow :=
  { product_name := "Senf", price := 1, original_price := 1, store := "edeka",
    image_url := none, source_url := "https://www.marktguru.de/angebote/edeka/7",
    valid_from := none, valid_until := none, scraped_at := 50, embedding := none,
    offer_id := "7", currency := "EUR", product_slug := "senf" }

/-- A stored row of a different retailer. -/
def c1_other_row : OfferRow :=
  { product_name := "Mehl", price := 1, original_price := 1, store := "rewe",
    image_url := none, source_url := "https://www.marktguru.de/angebote/rewe/8",
    valid_from := none, valid_until := none, scraped_at := 50, embedding := none,
    offer_id := "8", currency := "EUR", product_slug := "mehl" }

/-- A canonical offer with a valid 768-dimensional embedding. -/
def c7_good : BonalyzeOffer :=
  { retailer := "edeka", product_name := "Frikadelle", price := 3, regular_price := 3,
    unit := none, amount := none, currency := "EUR", valid_from := none, valid_to := none,
    image_url := none, source_url := some "https://www.marktguru.de/angebote/edeka/1",
    offer_id := "1", embedding := some (List.replicate 768 (1/10 : ℚ)), scraped_at := 0,
    raw_data := none }

/-- A canonical offer without any embedding. -/
def c7_bad : BonalyzeOffer := { c7_good with offer_id := "2", embedding := none }

/-- A stats record with `fetched = 0` and otherwise healthy counters. -/
def c8_stats : StatsDict :=
  { fetched := some 0, inserted := some 5, embedded := some 5, store_errors := some 0,
    failure_rate := some 0 }

/-- A raw item whose explicit `sourceUrl` carries surrounding whitespace. -/
def c10_item : RawItem := { sourceUrl := some " https://example.com/a " }

/-- The spec's wording of the retailer filter's trigger, kept for comparison
with the code: the raw retailer sub-object "explicitly marks the offer as
non-indexable" when it carries the `indexOffer` key with value `false`. -/
def explicitly_marks_non_indexable (rr : RawRetailer) : Prop :=
  rr.indexOffer = some false

/-! ## Helper lemmas -/

/-- The `try` body of `_parse_offer` never produces an offer: every path
either returns `None` at a filter or raises while building the
category-candidate list. -/
theorem parse_offer_body_no_offer (item : RawItem) (r : String) (o : BonalyzeOffer) :
    parse_offer_body item r ≠ .ok (some o) := by
  unfold parse_offer_body
  cases parse_marktguru_offer item with
  | error e => simp
  | ok mg =>
    simp only [marktguru_offer_attr_categories]
    split
    · simp
    · split
      · simp
      · split
        · simp
        · simp

/-- `_parse_offer` returns `None` on every input. -/
theorem parse_offer_none (item : RawItem) (r : String) : parse_offer item r = none := by
  unfold parse_offer
  cases hb : parse_offer_body item r with
  | error e => rfl
  | ok v =>
    cases v with
    | none => rfl
    | some o => exact absurd hb (parse_offer_body_no_offer item r o)

/-- The embedding gate depends only on the `embedding` field. -/
theorem emb_gate_congr {o o' : BonalyzeOffer} (h : o.embedding = o'.embedding) :
    emb_gate o = emb_gate o' := by
  unfold emb_gate
  rw [h]

/-- Dropped-element count of a boolean filter. -/
theorem length_filter_not {α : Type} (p : α → Bool) (l : List α) :
    l.length - (l.filter p).length = (l.filter (fun a => !p a)).length := by
  induction l with
  | nil => rfl
  | cons a t ih =>
    have hle := List.length_filter_le p t
    by_cases h : p a <;> simp [List.filter_cons, h] <;> omega

/-! ## Claim theorems -/

/-- C1: Mark-and-sweep invariant. For every retailer `R` and run timestamp
`T`, modeling the store as a table of rows with a store key and a
`scraped_at` timestamp: after a successful mark phase (a
`sync_offers_batch` upsert of a batch whose offers all carry
`scraped_at = T`, as `main_async` sets before syncing) followed by a
successful `prune_stale_offers T R` sweep, the resulting store state
contains no row for retailer `R` whose `scraped_at` is strictly below `T`. -/
theorem mark_sweep_invariant (tbl : List OfferRow) (offers : List BonalyzeOffer)
    (T : Int) (R : String) :
    ∀ row ∈ (prune_stale_offers T R (sync_offers_store_effect tbl (set_scraped_at T offers))).1,
      ¬(row.store = R ∧ row.scraped_at < T) := by
  intro row hrow hc
  simp only [prune_stale_offers] at hrow
  have h := (List.mem_filter.mp hrow).2
  simp [hc.1, hc.2] at h

/-- Witness for C1: the surviving row of a concrete mark+sweep run is not a
stale row of the swept retailer. -/
theorem mark_sweep_invariant_witness :
    ¬(c1_other_row.store = "edeka" ∧ c1_other_row.scraped_at < 100) :=
  mark_sweep_invariant [c1_stale_row, c1_other_row] [] 100 "edeka" c1_other_row (by decide)

/-- C2: For every input item and retailer key, `_parse_offer` returns
`None`: every path either rejects at a filter or raises inside the
field-derivation block (the category-candidate list reads the undeclared
`categories` attribute of `MarktguruOffer`, and the `BonalyzeOffer`
constructor would in any case forbid the `category` keyword it is passed),
and the enclosing handler converts the raised error to `None`. -/
theorem parse_offer_always_none (item : RawItem) (retailer : String) :
    parse_offer item retailer = none :=
  parse_offer_none item retailer

/-- C3: evaluation of the code at the failing input. The claim says the
canonical offer entity carries an optional `category` attribute; in the
code, `BonalyzeOffer` declares no `category` field and forbids extra
keywords, so the parser's construction call — which passes `category=` —
fails validation instead of succeeding. -/
theorem bonalyze_offer_category_keyword_rejected :
    bonalyze_offer_ctor c3_args 0 = .error .validationError := rfl

/-- C4: evaluation of the code at the failing input. The claim (and the
repository's own test) expects the valid test item with `oldPrice=None`,
`price=3.0` to parse into a non-null offer with
`regular_price == 3.0 == price`; the code instead returns `None` for it:
the item passes every filter, and the field-derivation block then raises
`AttributeError` before any offer is built. -/
theorem parse_offer_none_on_valid_test_item :
    parse_offer_body c4_item "edeka" = .error .attributeError
    ∧ parse_offer c4_item "edeka" = none :=
  ⟨rfl, rfl⟩

/-- C5: Validity-window filter. Parse returns null when neither the flat
`validFrom`/`validTo` pair nor the first entry of the `validityDates` list
yields both bounds (whether the list is absent, empty, or its first entry
lacks a bound), and also returns null when both bounds resolve — from the
flat pair, or, with the flat pair incomplete, from the first
`validityDates` entry — but the day-granularity duration exceeds 14 days. -/
theorem validity_window_filter (item : RawItem) (r : String) :
    ((item.validFrom = none ∨ item.validTo = none) →
      (item.validityDates = none ∨ item.validityDates = some []) →
      parse_offer item r = none)
    ∧ (∀ v vs, item.validityDates = some (v :: vs) → (v.from_ = none ∨ v.to_ = none) →
        parse_offer item r = none)
    ∧ (∀ vf vt, item.validFrom = some vf → item.validTo = some vt →
        (vt - vf).fdiv 86400 > 14 → parse_offer item r = none)
    ∧ (∀ v vs f t, (item.validFrom = none ∨ item.validTo = none) →
        item.validityDates = some (v :: vs) → v.from_ = some f → v.to_ = some t →
        (t - f).fdiv 86400 > 14 → parse_offer item r = none) :=
  ⟨fun _ _ => parse_offer_none item r,
   fun _ _ _ _ => parse_offer_none item r,
   fun _ _ _ _ _ => parse_offer_none item r,
   fun _ _ _ _ _ _ _ _ _ => parse_offer_none item r⟩

/-- Witness for C5: an item with `validFrom=None`, `validTo=None`,
`validityDates=[]` parses to null, and so do an item with a 15-day flat
window and an item whose bounds resolve from the first `validityDates`
entry with a 15-day span. -/
theorem validity_window_filter_witness :
    parse_offer c5_item "edeka" = none
    ∧ parse_offer c5_item_long "edeka" = none
    ∧ parse_offer c5_item_vd_long "edeka" = none :=
  ⟨(validity_window_filter c5_item "edeka").1 (Or.inl rfl) (Or.inr rfl),
   (validity_window_filter c5_item_long "edeka").2.2.1 0 1296000 rfl rfl (by decide),
   (validity_window_filter c5_item_vd_long "edeka").2.2.2
     { from_ := some 0, to_ := some 1296000 } [] 0 1296000 (Or.inl rfl) rfl rfl rfl (by decide)⟩

/-- C6 counterexample: the claim says a retailer sub-object that does not
explicitly mark the offer non-indexable does not cause rejection. But
`MarktguruRetailer.indexOffer` defaults to `False`, so a retailer
sub-object carrying no `indexOffer` key at all is parsed with
`indexOffer = false` and the filter rejects it. -/
theorem retailer_index_filter_counterexample :
    ¬ explicitly_marks_non_indexable c6_raw_retailer
    ∧ parse_opt_retailer (some c6_raw_retailer) =
        .ok (some { id := 4, name := "EDEKA", indexOffer := false })
    ∧ retailer_index_rejects (some { id := 4, name := "EDEKA", indexOffer := false }) = true := by
  refine ⟨?_, rfl, rfl⟩
  simp [explicitly_marks_non_indexable, c6_raw_retailer]

/-- C6 (amended): the indexing-flag filter rejects exactly when the raw item
carries a retailer sub-object and that sub-object's `indexOffer` flag —
which pydantic defaults to `false` when the key is absent — is false;
absence of the whole sub-object never rejects. -/
theorem retailer_index_filter_amended (orr : Option RawRetailer)
    (res : Option MarktguruRetailer) (h : parse_opt_retailer orr = .ok res) :
    (orr = none → retailer_index_rejects res = false)
    ∧ (∀ rr, orr = some rr → retailer_index_rejects res = !(rr.indexOffer.getD false)) := by
  constructor
  · rintro rfl
    simp only [parse_opt_retailer, Except.ok.injEq] at h
    rw [← h]
    rfl
  · rintro rr rfl
    obtain ⟨oid, oname, oflag⟩ := rr
    cases oid with
    | none => simp [parse_opt_retailer] at h
    | some i =>
      cases oname with
      | none => simp [parse_opt_retailer] at h
      | some n =>
        simp only [parse_opt_retailer, Except.ok.injEq] at h
        rw [← h]
        rfl

/-- Witness for C6: a retailer sub-object with an explicit `indexOffer=true`
is parsed and not rejected by the filter. -/
theorem retailer_index_filter_amended_witness :
    retailer_index_rejects (some { id := 4, name := "EDEKA", indexOffer := true }) =
      !(c6_true_retailer.indexOffer.getD false) :=
  (retailer_index_filter_amended (some c6_true_retailer)
      (some { id := 4, name := "EDEKA", indexOffer := true }) rfl).2 c6_true_retailer rfl

/-- C7: Embedding gate in the mark phase. For every batch, the offers whose
embedding is missing or not exactly 768-dimensional are exactly the ones
counted in the returned `failed` counter; every row of the upsert payload
comes from a gate-passing offer; and the row of a gate-failing offer never
appears in the payload. -/
theorem embedding_gate_excludes (offers : List BonalyzeOffer) :
    sync_offers_batch_failed offers = (offers.filter (fun o => !emb_gate o)).length
    ∧ (∀ row ∈ sync_payload offers, ∃ o, o ∈ offers ∧ emb_gate o = true ∧ row = build_offer_row o)
    ∧ (∀ o ∈ offers, emb_gate o = false → build_offer_row o ∉ sync_payload offers) := by
  refine ⟨length_filter_not emb_gate offers, ?_, ?_⟩
  · intro row hrow
    simp only [sync_payload, offers_to_sync] at hrow
    rcases List.mem_map.mp hrow with ⟨o, ho, rfl⟩
    rcases List.mem_filter.mp ho with ⟨hmem, hgate⟩
    exact ⟨o, hmem, hgate, rfl⟩
  · intro o _ hgate hin
    simp only [sync_payload, offers_to_sync] at hin
    rcases List.mem_map.mp hin with ⟨o', ho', heq⟩
    rcases List.mem_filter.mp ho' with ⟨_, hgate'⟩
    have hemb : o'.embedding = o.embedding := congrArg OfferRow.embedding heq
    have hg := emb_gate_congr hemb
    rw [hgate', hgate] at hg
    exact Bool.noConfusion hg

/-- Witness for C7: in a concrete two-offer batch, the failed count equals
the number of gate-failing offers and the embeddingless offer's row is not
in the payload. -/
theorem embedding_gate_excludes_witness :
    sync_offers_batch_failed [c7_good, c7_bad] =
      (([c7_good, c7_bad]).filter (fun o => !emb_gate o)).length
    ∧ build_offer_row c7_bad ∉ sync_payload [c7_good, c7_bad] :=
  ⟨(embedding_gate_excludes [c7_good, c7_bad]).1,
   (embedding_gate_excludes [c7_good, c7_bad]).2.2 c7_bad
     (List.mem_cons_of_mem _ (List.mem_cons_self _ _)) rfl⟩

/-- C8: Run Health Evaluator. With `dry_run=True` the evaluator returns null
unconditionally; with `dry_run=False` and `fetched=0` it returns a non-null
failure reason regardless of every other counter. -/
theorem run_health_evaluator (stats : StatsDict) (allow_partial_success : Bool)
    (max_failure_rate : ℚ) :
    evaluate_run_failure_reason stats true allow_partial_success max_failure_rate = none
    ∧ (stats.fetched.getD 0 = 0 →
        evaluate_run_failure_reason stats false allow_partial_success max_failure_rate ≠ none) := by
  refine ⟨rfl, ?_⟩
  intro h
  simp [evaluate_run_failure_reason, h]

/-- Witness for C8: a concrete stats record with `fetched=0`. -/
theorem run_health_evaluator_witness :
    evaluate_run_failure_reason c8_stats true true 0 = none
    ∧ evaluate_run_failure_reason c8_stats false true 0 ≠ none :=
  ⟨(run_health_evaluator c8_stats true 0).1, (run_health_evaluator c8_stats true 0).2 rfl⟩

set_option maxRecDepth 4000

/-- C9: the category classification examples hold exactly for the classifier
function: hint "Bier" yields "Getränke > Alkohol"; hint "Wasser" yields
"Getränke > Alkoholfrei"; the Zuckererbsen product name with no hint yields
"Lebensmittel > Gemüse"; the Haferflocken product name with no hint yields
"Lebensmittel > Grundnahrungsmittel". -/
theorem category_classification_examples :
    to_category_label (some "Bier") none = some "Getränke > Alkohol"
    ∧ to_category_label (some "Wasser") none = some "Getränke > Alkoholfrei"
    ∧ to_category_label none (some "Zuckererbsen Ägypt. Zuckererbsen Kl. I je 200-g-Packg.")
        = some "Lebensmittel > Gemüse"
    ∧ to_category_label none (some "Haferflocken 100 % Vollkorn je 500-g-Packg.")
        = some "Lebensmittel > Grundnahrungsmittel" :=
  ⟨by decide, by decide, by decide, by decide⟩

/-- C10 counterexample: an explicit non-empty `sourceUrl` with surrounding
whitespace is not used verbatim: the builder returns its
whitespace-normalized form instead. -/
theorem source_url_not_verbatim :
    c10_item.sourceUrl = some " https://example.com/a "
    ∧ " https://example.com/a " ≠ ""
    ∧ build_source_url c10_item "edeka" (some 21755305) ≠ " https://example.com/a " :=
  ⟨rfl, by decide, by decide⟩

/-- C10 (amended): the whitespace-normalized value of an explicit
`sourceUrl` is used when it is non-blank; when no candidate field yields a
non-blank value, the url is synthesized as
`https://www.marktguru.de/angebote/{retailer-slug}/{offer_id}` from the
lowercased normalized retailer key and the offer id, and as the
retailer-root link when the offer id text is empty (id missing or zero). -/
theorem source_url_derivation (item : RawItem) (retailer : String) (oid : Option Int) :
    (∀ s, item.sourceUrl = some s → normalize_whitespace s ≠ "" →
      build_source_url item retailer oid = normalize_whitespace s)
    ∧ (first_url_candidate item = none →
        normalize_whitespace (py_str_of_opt_int oid) ≠ "" →
        build_source_url item retailer oid =
          "https://www.marktguru.de/angebote/" ++ retailer_slug_of retailer ++ "/" ++
            normalize_whitespace (py_str_of_opt_int oid))
    ∧ (first_url_candidate item = none →
        normalize_whitespace (py_str_of_opt_int oid) = "" →
        build_source_url item retailer oid =
          "https://www.marktguru.de/angebote/" ++ retailer_slug_of retailer) := by
  refine ⟨?_, ?_, ?_⟩
  · intro s hs hne
    simp [build_source_url, first_url_candidate, hs, List.findSome?_cons, hne]
  · intro h hne
    simp [build_source_url, h, hne]
  · intro h he
    simp [build_source_url, h, he]

/-- Witness for C10: the spec's example — retailer "edeka", offer id
21755305, no source-url candidates — synthesizes the deep link. -/
theorem source_url_derivation_witness :
    build_source_url ({} : RawItem) "edeka" (some 21755305) =
      "https://www.marktguru.de/angebote/edeka/21755305" :=
  ((source_url_derivation ({} : RawItem) "edeka" (some 21755305)).2.1 rfl (by decide)).trans
    (by decide)
